import Mathlib

/-!
Verification of the Note-Library live-quiz front-end.

Shallow embedding of the quiz-creation form (`CreateLiveQuiz`, in
`src/unnamed/part_000`) and the listing view (`LiveTest.tsx`), together with
proofs of the specified properties of question ingestion, draft submission,
and quiz listing.

JavaScript values are modelled as follows: JSON numbers are modelled as
integers (no claim depends on non-integral question content); the JS
number stored in `timeLimit` is modelled by `JsNum`, which distinguishes
`NaN` from integers because `parseInt` can produce `NaN` and NaN-comparisons
drive the validation behaviour.
-/

namespace NoteLibrary

/-- A JS number as it can appear in the `timeLimit` field: `parseInt`
returns either an integer value or `NaN`, and the field is initialised
to `0`. -/
inductive JsNum where
  | nan
  | int (i : Int)
deriving DecidableEq, Repr

/-- JS `a <= b` on numbers: any comparison involving `NaN` is `false`. -/
def JsNum.jsLe : JsNum → JsNum → Bool
  | .int a, .int b => a ≤ b
  | _, _ => false

/-- JS `parseInt(value)` restricted to decimal inputs (no hex prefixes,
which cannot arise from the number form field): skip leading whitespace,
read an optional sign and the longest digit prefix; `NaN` when no digit
is found. -/
def parseIntJs (s : String) : JsNum :=
  let t := s.data.dropWhile Char.isWhitespace
  let (sign, rest) :=
    match t with
    | '-' :: cs => ((-1 : Int), cs)
    | '+' :: cs => ((1 : Int), cs)
    | cs => ((1 : Int), cs)
  let digits := rest.takeWhile Char.isDigit
  if digits.isEmpty then .nan
  else .int (sign * (digits.foldl (fun n c => 10 * n + (c.toNat - 48)) 0 : Nat))

/-- Parsed JSON values (`JSON.parse` output). Numbers are modelled as
integers, which is sufficient for every claim (question records are
treated as opaque). -/
inductive Json where
  | null
  | bool (b : Bool)
  | num (n : Int)
  | str (s : String)
  | arr (items : List Json)
  | obj (fields : List (String × Json))

/-- The JS `key in value` operator. On an object it tests key membership;
on an array the own property keys are the canonical indices `"0"`,…, and
`"length"`; on a primitive (`null`, boolean, number, string) it THROWS a
`TypeError`, modelled by `Except.error ()`. -/
def jsIn (key : String) : Json → Except Unit Bool
  | .obj fields => .ok (fields.any (fun f => f.1 == key))
  | .arr items => .ok (key == "length" || (List.range items.length).any (fun i => toString i == key))
  | _ => .error ()

/-- The check `data.every(item => 'id' in item && 'question' in item)` with JS
short-circuiting: elements are visited in order and the first element
that fails (or whose property test throws) decides the outcome. -/
def everyHasIdAndQuestion : List Json → Except Unit Bool
  | [] => .ok true
  | item :: rest => do
    let hasId ← jsIn "id" item
    if !hasId then
      pure false
    else
      let hasQuestion ← jsIn "question" item
      if !hasQuestion then pure false
      else everyHasIdAndQuestion rest

/-- A JSON value "lacks" a property when the property test does not
positively succeed: objects lack exactly the keys that are absent;
primitives (on which the JS `in` operator throws) have no properties at
all. This is the spec-level reading of "element lacking an `id`
property". -/
def lacksProp (key : String) (j : Json) : Bool :=
  match jsIn key j with
  | .ok b => !b
  | .error _ => true

/-- An element counts as a question record when it is an object
possessing both an `id` property and a `question` property. -/
def isQuestionRecord : Json → Bool
  | Json.obj fields =>
    fields.any (fun f => f.1 == "id") && fields.any (fun f => f.1 == "question")
  | _ => false

/-- The shape violation the spec describes: the parsed value is not an
array, or it is an array with some element lacking an `id` property or a
`question` property. -/
def violatesShape : Json → Bool
  | Json.arr items =>
    items.any (fun j => lacksProp "id" j || lacksProp "question" j)
  | _ => true

/-- Message `'Invalid JSON format. Expected an array of quiz questions.'` —
the message set when the parsed value fails the shape check
(spec ErrorKind InvalidShape). -/
def invalidShapeMessage : String :=
  "Invalid JSON format. Expected an array of quiz questions."

/-- Message `'Invalid JSON file. Please ensure it\'s well-formed JSON.'` —
the message set by the catch branch (spec ErrorKind MalformedInput). -/
def malformedInputMessage : String :=
  "Invalid JSON file. Please ensure it\x27s well-formed JSON."

/-- Structure `QuizDetails` from `TestingQuizzes`, as used by the form: the grade
and audience enumerations are carried as strings exactly as the form
options provide them. -/
structure QuizDetails where
  id : String
  title : String
  grade : String
  timeLimit : JsNum
  targetAudience : String
deriving DecidableEq, Repr

/-- The `useState` pieces of the `CreateLiveQuiz` component. -/
structure ComponentState where
  quizDetails : QuizDetails
  quizQuestions : List Json
  fileError : Option String
  formError : Option String
  successMessage : Option String
  isSubmitting : Bool

/-- The component's initial state (`useState` initialisers). -/
def initialState : ComponentState :=
  { quizDetails :=
      { id := "", title := "", grade := "", timeLimit := .int 0,
        targetAudience := "authenticated" },
    quizQuestions := [], fileError := none, formError := none,
    successMessage := none, isSubmitting := false }

/-- The body of the `reader.onload` handler applied to the result of
`JSON.parse`: `Array.isArray(data) && data.every(...)` selects the success
branch; a `false` outcome selects the invalid-shape branch; a throw from
the property test lands in the same `catch` as a parse failure. -/
def ingestParsed (data : Json) (st : ComponentState) : ComponentState :=
  match data with
  | .arr items =>
    match everyHasIdAndQuestion items with
    | .ok true => { st with quizQuestions := items, fileError := none }
    | .ok false =>
      { st with fileError := some invalidShapeMessage, quizQuestions := [] }
    | .error _ =>
      { st with fileError := some malformedInputMessage, quizQuestions := [] }
  | _ => { st with fileError := some invalidShapeMessage, quizQuestions := [] }

/-- Handler `handleFileChange`. The input is the outcome of selecting a file and
parsing its text: `none` when no file is selected, `some (.error ())` when
`JSON.parse` throws, `some (.ok data)` when it parses to `data`. -/
def handleFileChange (parsed : Option (Except Unit Json))
    (st : ComponentState) : ComponentState :=
  match parsed with
  | none => { st with quizQuestions := [], fileError := none }
  | some (.error _) =>
    { st with fileError := some malformedInputMessage, quizQuestions := [] }
  | some (.ok data) => ingestParsed data st

example :
    (handleFileChange (some (.ok (Json.arr [Json.obj [("id", .str "q1"), ("question", .str "2+2?")]])))
      initialState).quizQuestions
      = [Json.obj [("id", .str "q1"), ("question", .str "2+2?")]] := rfl

example :
    (handleFileChange (some (.ok (Json.arr [Json.num 5]))) initialState).fileError
      = some malformedInputMessage := rfl

example :
    (handleFileChange (some (.ok (Json.obj [("id", .str "q1")]))) initialState).fileError
      = some invalidShapeMessage := rfl

/-- Handler `handleDetailsChange`: the computed-key update
`[name]: name === 'timeLimit' ? parseInt(value) : value` restricted to
the fields of `QuizDetails` (the form only emits the names below). -/
def handleDetailsChange (name value : String) (st : ComponentState) :
    ComponentState :=
  { st with quizDetails :=
      if name == "timeLimit" then
        { st.quizDetails with timeLimit := parseIntJs value }
      else if name == "title" then { st.quizDetails with title := value }
      else if name == "grade" then { st.quizDetails with grade := value }
      else if name == "targetAudience" then
        { st.quizDetails with targetAudience := value }
      else if name == "id" then { st.quizDetails with id := value }
      else st.quizDetails }

/-- Message `"Authentication not loaded or user not logged in."` -/
def authErrorMessage : String :=
  "Authentication not loaded or user not logged in."

/-- Message `"Please fill in all quiz details (Title, Grade, Time Limit)."` -/
def detailsErrorMessage : String :=
  "Please fill in all quiz details (Title, Grade, Time Limit)."

/-- Message `"Please upload a JSON file with quiz questions."` -/
def questionsErrorMessage : String :=
  "Please upload a JSON file with quiz questions."

/-- The template literal
`Quiz "${quizDetails.title}" added/updated successfully with ID: ${quizId}`. -/
def successMessageFor (title quizId : String) : String :=
  "Quiz \"" ++ title ++ "\" added/updated successfully with ID: " ++ quizId

/-- Message `Failed to save quiz: ${(error as Error).message || 'Unknown error'}`;
an empty (falsy) collaborator message is replaced by `'Unknown error'`. -/
def persistFailMessageFor (msg : String) : String :=
  "Failed to save quiz: " ++ (if msg == "" then "Unknown error" else msg)

/-- Identifier `` `quiz_${Date.now()}` `` — generated from the
submission time in milliseconds. -/
def newQuizIdFor (now : Nat) : String := "quiz_" ++ toString now

/-- Bundle `finalQuizData` handed to `saveLiveQuizToFirestore`. -/
structure QuizBundle where
  details : QuizDetails
  questions : List Json
  type : String

/-- The `finalQuizData` value built by `handleSubmit` once the checks
pass: the draft details with the generated identifier attached, the
draft's questions, and the fixed `'live'` tag. -/
def submittedBundle (now : Nat) (st : ComponentState) : QuizBundle :=
  { details := { st.quizDetails with id := newQuizIdFor now },
    questions := st.quizQuestions, type := "live" }

/-- The synchronous prefix of `handleSubmit`, up to and including the start
of the persistence call: clear the messages, run the three precondition
checks in order (auth, details, questions; early `return` on the first
failure), then generate the identifier, build `finalQuizData` and set
`isSubmitting`. Returns the new component state together with the
persistence call being started, if any (bundle and `currentUser.uid`). -/
def submitBegin (authLoading : Bool) (currentUser : Option String) (now : Nat)
    (st : ComponentState) : ComponentState × Option (QuizBundle × String) :=
  let st := { st with formError := none, successMessage := none }
  if authLoading || currentUser.isNone then
    ({ st with formError := some authErrorMessage }, none)
  else if st.quizDetails.title == "" || st.quizDetails.grade == ""
      || st.quizDetails.timeLimit.jsLe (.int 0) then
    ({ st with formError := some detailsErrorMessage }, none)
  else if st.quizQuestions.length == 0 then
    ({ st with formError := some questionsErrorMessage }, none)
  else
    -- the guard above ensures `currentUser = some uid`, so `getD` is `uid`
    ({ st with isSubmitting := true },
      some (submittedBundle now st, currentUser.getD ""))

/-- The continuation of `handleSubmit` after `await saveLiveQuizToFirestore`
resolves: on success set the confirmation (from the closure's title, carried
in the bundle) and reset the draft; on rejection set the failure message;
`finally` clears `isSubmitting` either way. -/
def submitResolve (call : QuizBundle × String) (result : Except String String)
    (st : ComponentState) : ComponentState :=
  match result with
  | .ok quizId =>
    { st with
      successMessage := some (successMessageFor call.1.details.title quizId),
      quizDetails :=
        { id := "", title := "", grade := "", timeLimit := .int 0,
          targetAudience := "authenticated" },
      quizQuestions := [], isSubmitting := false }
  | .error msg =>
    { st with
      formError := some (persistFailMessageFor msg),
      isSubmitting := false }

/-- Outcome of one full run of `handleSubmit`: the final component state
and the persistence call that was made, if any. -/
structure SubmitOutcome where
  state : ComponentState
  callMade : Option (QuizBundle × String)

/-- Handler `handleSubmit` run to completion: the synchronous prefix, and when a
persistence call is started, its resolution with the collaborator's
response (`persist` models `saveLiveQuizToFirestore`: an identifier on
success, a message-carrying rejection on failure). -/
def handleSubmit (authLoading : Bool) (currentUser : Option String)
    (now : Nat) (persist : QuizBundle → String → Except String String)
    (st : ComponentState) : SubmitOutcome :=
  match submitBegin authLoading currentUser now st with
  | (st1, none) => { state := st1, callMade := none }
  | (st1, some call) =>
    { state := submitResolve call (persist call.1 call.2) st1,
      callMade := some call }

/-- The submit button's `disabled` expression. -/
def buttonDisabled (authLoading : Bool) (currentUser : Option String)
    (st : ComponentState) : Bool :=
  st.isSubmitting || authLoading || currentUser.isNone
    || st.quizQuestions.length == 0 || st.quizDetails.title == ""
    || st.quizDetails.timeLimit.jsLe (.int 0)

/-- Structure `LiveQuizData` as consumed by the listing view (`LiveTest.tsx`):
the persisted bundle together with its creation timestamp, carried here
directly as the `createdAt.toMillis()` value. -/
structure LiveQuizData where
  details : QuizDetails
  questions : List Json
  type : String
  createdAt : Nat

/-- The comparator order underlying
`(a, b) => b.createdAt.toMillis() - a.createdAt.toMillis()`:
`a` may precede `b` exactly when the comparator is non-positive,
i.e. when `b.createdAt ≤ a.createdAt`. -/
def byCreatedAtDesc (a b : LiveQuizData) : Prop :=
  b.createdAt ≤ a.createdAt

instance : DecidableRel byCreatedAtDesc := fun a b =>
  inferInstanceAs (Decidable (b.createdAt ≤ a.createdAt))

instance : IsTotal LiveQuizData byCreatedAtDesc :=
  ⟨fun a b => Nat.le_total b.createdAt a.createdAt⟩

instance : IsTrans LiveQuizData byCreatedAtDesc :=
  ⟨fun _ _ _ h1 h2 => Nat.le_trans h2 h1⟩

/-- The sort `fetchedQuizzes.sort((a, b) => b.createdAt.toMillis() - a.createdAt.toMillis())`
from `fetchQuizzes` in `LiveTest.tsx`. ECMAScript `Array.prototype.sort`
with a consistent comparator produces a stable sort in the comparator's
order; it is modelled by a stable sorting algorithm over `byCreatedAtDesc`. -/
def sortQuizzes (fetchedQuizzes : List LiveQuizData) : List LiveQuizData :=
  fetchedQuizzes.insertionSort byCreatedAtDesc

/-- Pairwise-distinct creation timestamps, as an executable check. -/
def distinctCreatedAt : List LiveQuizData → Bool
  | [] => true
  | q :: rest =>
    rest.all (fun r => q.createdAt != r.createdAt) && distinctCreatedAt rest

/-- One form instance together with its environment: the auth context
(`authLoading`, `currentUser`) and the set of persistence calls currently
in flight (started and not yet resolved). -/
structure Sys where
  comp : ComponentState
  inFlight : List (QuizBundle × String)
  authLoading : Bool
  currentUser : Option String

/-- Event-driven small-step semantics of the form instance. A submit
attempt can only start through the submit button, which is `disabled`
while `isSubmitting`; a started persistence call is appended to
`inFlight` and removed when it resolves, which also runs the rest of
`handleSubmit` (the `await` continuation). Form-field events, file
events and auth-context changes may interleave freely. -/
inductive Step : Sys → Sys → Prop where
  | click (now : Nat) (s : Sys) :
      buttonDisabled s.authLoading s.currentUser s.comp = false →
      Step s
        { s with
          comp := (submitBegin s.authLoading s.currentUser now s.comp).1,
          inFlight := s.inFlight
            ++ (submitBegin s.authLoading s.currentUser now s.comp).2.toList }
  | resolve (result : Except String String) (call : QuizBundle × String)
      (rest : List (QuizBundle × String)) (s : Sys) :
      s.inFlight = call :: rest →
      Step s
        { s with comp := submitResolve call result s.comp, inFlight := rest }
  | details (name value : String) (s : Sys) :
      Step s { s with comp := handleDetailsChange name value s.comp }
  | file (parsed : Option (Except Unit Json)) (s : Sys) :
      Step s { s with comp := handleFileChange parsed s.comp }
  | auth (a : Bool) (u : Option String) (s : Sys) :
      Step s { s with authLoading := a, currentUser := u }

/-- A freshly mounted form instance: initial component state, no call in
flight. -/
def initSys (a : Bool) (u : Option String) : Sys :=
  { comp := initialState, inFlight := [], authLoading := a, currentUser := u }

/-- The states a form instance can reach from a fresh mount. -/
inductive Reachable : Sys → Prop where
  | init (a : Bool) (u : Option String) : Reachable (initSys a u)
  | step {s t : Sys} : Reachable s → Step s t → Reachable t

/-- The question record of the spec's worked example:
`{"id":"q1","question":"2+2?"}`. -/
def exampleQuestion : Json :=
  Json.obj [("id", Json.str "q1"), ("question", Json.str "2+2?")]

/-- The draft of the spec's worked example: title `Algebra`, grade `10`,
time limit `10`, audience `all`, and the example question uploaded. -/
def algebraDraftState : ComponentState :=
  handleFileChange (some (.ok (Json.arr [exampleQuestion])))
    (handleDetailsChange "targetAudience" "all"
      (handleDetailsChange "timeLimit" "10"
        (handleDetailsChange "grade" "10"
          (handleDetailsChange "title" "Algebra" initialState))))

/-- The draft reached by typing title `Algebra` and grade `10`, then
clearing the time-limit number field (the input then reports value `""`,
and `parseInt("")` is `NaN`), and uploading the example question. -/
def nanDraftState : ComponentState :=
  handleFileChange (some (.ok (Json.arr [exampleQuestion])))
    (handleDetailsChange "timeLimit" ""
      (handleDetailsChange "grade" "10"
        (handleDetailsChange "title" "Algebra" initialState)))

/-- A listed quiz with the given identifier and creation time, for the
listing example. -/
def listedQuizAt (id : String) (createdAt : Nat) : LiveQuizData :=
  { details :=
      { id := id, title := id, grade := "10", timeLimit := .int 10,
        targetAudience := "all" },
    questions := [], type := "live", createdAt := createdAt }

/-- Reduction of `Except` bind on a success, as used by the embedded
short-circuiting property check. -/
theorem exceptBind_ok {ε α β : Type} (a : α) (f : α → Except ε β) :
    (Except.ok a >>= f) = f a := rfl

/-- Reduction of `Except` bind on a throw. -/
theorem exceptBind_error {ε α β : Type} (e : ε) (f : α → Except ε β) :
    (Except.error e >>= f) = Except.error e := rfl

/-- Reduction of `pure` in the `Except` monad. -/
theorem exceptPure {ε α : Type} (a : α) :
    (pure a : Except ε α) = Except.ok a := rfl

/-- On a list of question records (objects carrying both keys), the
element-wise check succeeds. -/
theorem everyHasIdAndQuestion_eq_ok_true {items : List Json}
    (h : items.all isQuestionRecord = true) :
    everyHasIdAndQuestion items = .ok true := by
  induction items with
  | nil => rfl
  | cons item rest ih =>
    have hcons : (isQuestionRecord item && rest.all isQuestionRecord)
        = true := List.all_cons .. ▸ h
    rw [Bool.and_eq_true] at hcons
    obtain ⟨h1, h2⟩ := hcons
    cases item with
    | obj fields =>
      have h1' : (fields.any (fun f => f.1 == "id")
          && fields.any (fun f => f.1 == "question")) = true := h1
      rw [Bool.and_eq_true] at h1'
      obtain ⟨hid, hq⟩ := h1'
      simp [everyHasIdAndQuestion, jsIn, hid, hq, ih h2, exceptBind_ok]
    | null => exact Bool.noConfusion h1
    | bool b => exact Bool.noConfusion h1
    | num n => exact Bool.noConfusion h1
    | str s => exact Bool.noConfusion h1
    | arr xs => exact Bool.noConfusion h1

/-- If some element lacks one of the keys, the element-wise check cannot
succeed (it returns `false` or throws at the first offender). -/
theorem everyHasIdAndQuestion_ne_ok_true {items : List Json}
    (h : ∃ j ∈ items, (lacksProp "id" j || lacksProp "question" j) = true) :
    everyHasIdAndQuestion items ≠ .ok true := by
  induction items with
  | nil => simp at h
  | cons item rest ih =>
    obtain ⟨j, hj, hlacks⟩ := h
    rcases List.mem_cons.mp hj with rfl | hj
    · unfold lacksProp at hlacks
      unfold everyHasIdAndQuestion
      rcases hid : jsIn "id" j with e | b
      · simp [hid, exceptBind_error]
      · rcases b with _ | _
        · simp [hid, exceptBind_ok, exceptPure]
        · rcases hq : jsIn "question" j with e | b
          · simp [hid, hq, exceptBind_ok, exceptBind_error]
          · rcases b with _ | _
            · simp [hid, hq, exceptBind_ok, exceptPure]
            · simp [hid, hq] at hlacks
    · unfold everyHasIdAndQuestion
      rcases hid : jsIn "id" item with e | b
      · simp [hid, exceptBind_error]
      · rcases b with _ | _
        · simp [hid, exceptBind_ok, exceptPure]
        · rcases hq : jsIn "question" item with e | b
          · simp [hid, hq, exceptBind_ok, exceptBind_error]
          · rcases b with _ | _
            · simp [hid, hq, exceptBind_ok, exceptPure]
            · simpa [hid, hq, exceptBind_ok] using ih ⟨j, hj, hlacks⟩

/-- Claim C10 (frame effect of ingestion): for every possible uploaded file
— well-formed, shape-invalid, malformed, or no file selected — the
ingestion handler leaves the draft's quiz details unchanged, and also
leaves the form error, the success message and the submitting flag
unchanged: it only ever writes the question sequence and the file-error
flag. -/
theorem fileChange_frame (parsed : Option (Except Unit Json))
    (st : ComponentState) :
    (handleFileChange parsed st).quizDetails = st.quizDetails
    ∧ (handleFileChange parsed st).formError = st.formError
    ∧ (handleFileChange parsed st).successMessage = st.successMessage
    ∧ (handleFileChange parsed st).isSubmitting = st.isSubmitting := by
  rcases parsed with _ | e
  · exact ⟨rfl, rfl, rfl, rfl⟩
  rcases e with e | data
  · exact ⟨rfl, rfl, rfl, rfl⟩
  cases data with
  | arr items =>
    simp only [handleFileChange, ingestParsed]
    rcases everyHasIdAndQuestion items with e | b
    · exact ⟨rfl, rfl, rfl, rfl⟩
    · cases b
      · exact ⟨rfl, rfl, rfl, rfl⟩
      · exact ⟨rfl, rfl, rfl, rfl⟩
  | null => exact ⟨rfl, rfl, rfl, rfl⟩
  | bool b => exact ⟨rfl, rfl, rfl, rfl⟩
  | num n => exact ⟨rfl, rfl, rfl, rfl⟩
  | str s => exact ⟨rfl, rfl, rfl, rfl⟩
  | obj fields => exact ⟨rfl, rfl, rfl, rfl⟩

/-- Claim C3 (ingestion success): for every uploaded file whose content
parses as an array of records each possessing an `id` property and a
`question` property, ingestion succeeds: the question sequence becomes
exactly the parsed array (same elements, same order) and the file-error
flag is cleared. -/
theorem ingest_success (items : List Json) (st : ComponentState)
    (h : items.all isQuestionRecord = true) :
    (handleFileChange (some (.ok (Json.arr items))) st).quizQuestions = items
    ∧ (handleFileChange (some (.ok (Json.arr items))) st).fileError = none := by
  simp [handleFileChange, ingestParsed, everyHasIdAndQuestion_eq_ok_true h]

/-- Witness for C3 at the spec's example input `[{"id":"q1","question":"2+2?"}]`. -/
theorem ingest_success_witness :
    ([exampleQuestion].all isQuestionRecord = true)
    ∧ (handleFileChange (some (.ok (Json.arr [exampleQuestion])))
        initialState).quizQuestions = [exampleQuestion]
    ∧ (handleFileChange (some (.ok (Json.arr [exampleQuestion])))
        initialState).fileError = none := by
  have hyp : [exampleQuestion].all isQuestionRecord = true := rfl
  have hmain := ingest_success [exampleQuestion] initialState hyp
  exact ⟨hyp, hmain.1, hmain.2⟩

/-- The two ingestion error messages are distinct. -/
theorem invalidShape_ne_malformed : invalidShapeMessage ≠ malformedInputMessage := by
  decide

/-- Claim C2 counterexample: the parsed value `[5]` is an array whose (only)
element lacks an `id` property, yet ingestion does not report the
invalid-shape error: the JS `in` operator throws a `TypeError` on the
primitive element, which lands in the same catch branch as a parse
failure, so the malformed-input message is reported instead. The
question sequence is still cleared. -/
theorem ingest_primitive_element_counterexample :
    violatesShape (Json.arr [Json.num 5]) = true
    ∧ (handleFileChange (some (.ok (Json.arr [Json.num 5])))
        initialState).fileError ≠ some invalidShapeMessage
    ∧ (handleFileChange (some (.ok (Json.arr [Json.num 5])))
        initialState).fileError = some malformedInputMessage
    ∧ (handleFileChange (some (.ok (Json.arr [Json.num 5])))
        initialState).quizQuestions = [] := by
  refine ⟨rfl, ?_, rfl, rfl⟩
  intro hcontra
  have : malformedInputMessage = invalidShapeMessage := Option.some.inj hcontra
  exact invalidShape_ne_malformed this.symm

/-- Claim C2 (amended): for every uploaded input whose parsed value is not
an array, or is an array with some element lacking an `id` property or a
`question` property, ingestion fails and the draft's question sequence
becomes empty; the reported error is InvalidShape, except that when the
element-wise check first reaches a primitive element (where the JS
property test throws) the malformed-input error is reported instead. -/
theorem ingest_invalid_shape (data : Json) (st : ComponentState)
    (h : violatesShape data = true) :
    (handleFileChange (some (.ok data)) st).quizQuestions = []
    ∧ ((handleFileChange (some (.ok data)) st).fileError
          = some invalidShapeMessage
       ∨ (handleFileChange (some (.ok data)) st).fileError
          = some malformedInputMessage)
    ∧ ((handleFileChange (some (.ok data)) st).fileError
          = some malformedInputMessage
       → ∃ items, data = Json.arr items
           ∧ everyHasIdAndQuestion items = .error ()) := by
  have hmsgs := invalidShape_ne_malformed
  cases data with
  | null =>
    exact ⟨rfl, Or.inl rfl,
      fun hmal => absurd (Option.some.inj hmal) hmsgs⟩
  | bool b =>
    exact ⟨rfl, Or.inl rfl,
      fun hmal => absurd (Option.some.inj hmal) hmsgs⟩
  | num n =>
    exact ⟨rfl, Or.inl rfl,
      fun hmal => absurd (Option.some.inj hmal) hmsgs⟩
  | str s =>
    exact ⟨rfl, Or.inl rfl,
      fun hmal => absurd (Option.some.inj hmal) hmsgs⟩
  | obj fields =>
    exact ⟨rfl, Or.inl rfl,
      fun hmal => absurd (Option.some.inj hmal) hmsgs⟩
  | arr items =>
    have hany : items.any
        (fun j => lacksProp "id" j || lacksProp "question" j) = true := h
    have hlacks : ∃ j ∈ items,
        (lacksProp "id" j || lacksProp "question" j) = true := by
      simpa using List.any_eq_true.mp hany
    have hne := everyHasIdAndQuestion_ne_ok_true hlacks
    rcases hev : everyHasIdAndQuestion items with e | b
    · cases e
      have hq : (handleFileChange (some (.ok (Json.arr items)))
          st).quizQuestions = [] := by
        simp [handleFileChange, ingestParsed, hev]
      have hf : (handleFileChange (some (.ok (Json.arr items)))
          st).fileError = some malformedInputMessage := by
        simp [handleFileChange, ingestParsed, hev]
      exact ⟨hq, Or.inr hf, fun _ => ⟨items, rfl, hev⟩⟩
    · cases b
      · have hq : (handleFileChange (some (.ok (Json.arr items)))
            st).quizQuestions = [] := by
          simp [handleFileChange, ingestParsed, hev]
        have hf : (handleFileChange (some (.ok (Json.arr items)))
            st).fileError = some invalidShapeMessage := by
          simp [handleFileChange, ingestParsed, hev]
        exact ⟨hq, Or.inl hf,
          fun hmal => absurd (Option.some.inj (hf.symm.trans hmal)) hmsgs⟩
      · exact absurd hev hne

/-- Witness for C2 (amended) at the spec's example input `{"id":"q1"}`
(not an array). -/
theorem ingest_invalid_shape_witness :
    violatesShape (Json.obj [("id", Json.str "q1")]) = true
    ∧ (handleFileChange (some (.ok (Json.obj [("id", Json.str "q1")])))
        initialState).quizQuestions = []
    ∧ ((handleFileChange (some (.ok (Json.obj [("id", Json.str "q1")])))
        initialState).fileError = some invalidShapeMessage
       ∨ (handleFileChange (some (.ok (Json.obj [("id", Json.str "q1")])))
        initialState).fileError = some malformedInputMessage) := by
  have hyp : violatesShape (Json.obj [("id", Json.str "q1")]) = true := rfl
  have hmain := ingest_invalid_shape (Json.obj [("id", Json.str "q1")])
    initialState hyp
  exact ⟨hyp, hmain.1, hmain.2.1⟩

/-- Clearing the transient messages does not change what bundle a draft
submits. -/
theorem submittedBundle_clearMessages (now : Nat) (st : ComponentState) :
    submittedBundle now { st with formError := none, successMessage := none }
      = submittedBundle now st := rfl

/-- Characterisation of `handleSubmit` when all three precondition checks
pass: the persistence write is invoked on `submittedBundle` and the
caller's identity, then the `await` continuation runs on its outcome. -/
theorem handleSubmit_eq_of_valid (authLoading : Bool)
    (currentUser : Option String) (now : Nat)
    (persist : QuizBundle → String → Except String String)
    (st : ComponentState)
    (hAuth : (authLoading || currentUser.isNone) = false)
    (hDetails : (st.quizDetails.title == "" || st.quizDetails.grade == ""
        || st.quizDetails.timeLimit.jsLe (.int 0)) = false)
    (hQs : (st.quizQuestions.length == 0) = false) :
    handleSubmit authLoading currentUser now persist st
      = { state := submitResolve (submittedBundle now st, currentUser.getD "")
            (persist (submittedBundle now st) (currentUser.getD ""))
            { st with
              formError := none, successMessage := none,
              isSubmitting := true },
          callMade := some (submittedBundle now st, currentUser.getD "") } := by
  simp [handleSubmit, submitBegin, hAuth, hDetails, hQs,
    submittedBundle_clearMessages]

/-- Claim C1 (submission preconditions): whenever at least one precondition
fails — auth not resolved or no signed-in identity, or title empty, grade
empty or `timeLimit <= 0`, or no questions — `handleSubmit` makes no
persistence call, reports the validation message of the first failing
check (checked in the order auth, details, questions), and leaves the
draft and the submitting flag untouched. -/
theorem submit_validation (authLoading : Bool) (currentUser : Option String)
    (now : Nat) (persist : QuizBundle → String → Except String String)
    (st : ComponentState)
    (h : ((authLoading || currentUser.isNone)
        || (st.quizDetails.title == "" || st.quizDetails.grade == ""
            || st.quizDetails.timeLimit.jsLe (.int 0))
        || (st.quizQuestions.length == 0)) = true) :
    (handleSubmit authLoading currentUser now persist st).callMade = none
    ∧ (handleSubmit authLoading currentUser now persist st).state.formError
        = some (if (authLoading || currentUser.isNone) = true then
                  authErrorMessage
                else if (st.quizDetails.title == "" || st.quizDetails.grade == ""
                    || st.quizDetails.timeLimit.jsLe (.int 0)) = true then
                  detailsErrorMessage
                else questionsErrorMessage)
    ∧ (handleSubmit authLoading currentUser now persist st).state.quizDetails
        = st.quizDetails
    ∧ (handleSubmit authLoading currentUser now persist st).state.quizQuestions
        = st.quizQuestions
    ∧ (handleSubmit authLoading currentUser now persist st).state.isSubmitting
        = st.isSubmitting := by
  by_cases h1 : (authLoading || currentUser.isNone) = true
  · simp [handleSubmit, submitBegin, h1]
  · have h1' : (authLoading || currentUser.isNone) = false :=
      Bool.eq_false_iff.mpr h1
    by_cases h2 : (st.quizDetails.title == "" || st.quizDetails.grade == ""
        || st.quizDetails.timeLimit.jsLe (.int 0)) = true
    · simp [handleSubmit, submitBegin, h1', h2]
    · have h2' : (st.quizDetails.title == "" || st.quizDetails.grade == ""
          || st.quizDetails.timeLimit.jsLe (.int 0)) = false :=
        Bool.eq_false_iff.mpr h2
      have h3 : (st.quizQuestions.length == 0) = true := by
        simpa [h1', h2'] using h
      simp [handleSubmit, submitBegin, h1', h2', h3]

/-- Witness for C1: signed-in user, auth resolved, but an empty draft
(empty title) — the details check is the first to fail. -/
theorem submit_validation_witness :
    (((false || (some "u1" : Option String).isNone)
        || (initialState.quizDetails.title == ""
            || initialState.quizDetails.grade == ""
            || initialState.quizDetails.timeLimit.jsLe (.int 0))
        || (initialState.quizQuestions.length == 0)) = true)
    ∧ (handleSubmit false (some "u1") 0 (fun _ _ => .ok "X")
        initialState).callMade = none
    ∧ (handleSubmit false (some "u1") 0 (fun _ _ => .ok "X")
        initialState).state.formError = some detailsErrorMessage := by
  have h : ((false || (some "u1" : Option String).isNone)
      || (initialState.quizDetails.title == ""
          || initialState.quizDetails.grade == ""
          || initialState.quizDetails.timeLimit.jsLe (.int 0))
      || (initialState.quizQuestions.length == 0)) = true := by decide
  have hmain := submit_validation false (some "u1") 0 (fun _ _ => .ok "X")
    initialState h
  refine ⟨h, hmain.1, ?_⟩
  simpa using hmain.2.1

/-- Claim C6 (persistence call shape): when all preconditions hold,
`handleSubmit` invokes the persistence write exactly once — on the bundle
whose details are the draft details with a fresh non-empty identifier
derived from the submission time attached as `id`, whose question
sequence is the draft's question sequence unchanged, and whose type tag
is `"live"` — together with the signed-in caller's identity. -/
theorem submit_persist_call (authLoading : Bool) (currentUser : Option String)
    (now : Nat) (persist : QuizBundle → String → Except String String)
    (st : ComponentState)
    (hAuth : (authLoading || currentUser.isNone) = false)
    (hDetails : (st.quizDetails.title == "" || st.quizDetails.grade == ""
        || st.quizDetails.timeLimit.jsLe (.int 0)) = false)
    (hQs : (st.quizQuestions.length == 0) = false) :
    (handleSubmit authLoading currentUser now persist st).callMade
        = some (submittedBundle now st, currentUser.getD "")
    ∧ currentUser = some (currentUser.getD "")
    ∧ (submittedBundle now st).details.id = newQuizIdFor now
    ∧ newQuizIdFor now ≠ ""
    ∧ (submittedBundle now st).details.title = st.quizDetails.title
    ∧ (submittedBundle now st).details.grade = st.quizDetails.grade
    ∧ (submittedBundle now st).details.timeLimit = st.quizDetails.timeLimit
    ∧ (submittedBundle now st).details.targetAudience
        = st.quizDetails.targetAudience
    ∧ (submittedBundle now st).questions = st.quizQuestions
    ∧ (submittedBundle now st).type = "live" := by
  have huser : currentUser = some (currentUser.getD "") := by
    rcases currentUser with _ | uid
    · simp at hAuth
    · rfl
  have hid : newQuizIdFor now ≠ "" := by
    intro hcontra
    have hlen := congrArg String.length hcontra
    rw [newQuizIdFor, String.length_append] at hlen
    have h5 : "quiz_".length = 5 := rfl
    have h0 : "".length = 0 := rfl
    omega
  refine ⟨?_, huser, rfl, hid, rfl, rfl, rfl, rfl, rfl, rfl⟩
  rw [handleSubmit_eq_of_valid authLoading currentUser now persist st
    hAuth hDetails hQs]

/-- Witness for C6: the spec's worked example draft (title `Algebra`,
grade `10`, time limit 10, one uploaded question, signed-in user). -/
theorem submit_persist_call_witness :
    ((false || (some "user-1" : Option String).isNone) = false)
    ∧ ((algebraDraftState.quizDetails.title == ""
        || algebraDraftState.quizDetails.grade == ""
        || algebraDraftState.quizDetails.timeLimit.jsLe (.int 0)) = false)
    ∧ ((algebraDraftState.quizQuestions.length == 0) = false)
    ∧ (handleSubmit false (some "user-1") 1700000000000
        (fun _ _ => .ok "X") algebraDraftState).callMade
        = some (submittedBundle 1700000000000 algebraDraftState, "user-1")
    ∧ newQuizIdFor 1700000000000 ≠ "" := by
  have h1 : (false || (some "user-1" : Option String).isNone) = false := rfl
  have h2 : (algebraDraftState.quizDetails.title == ""
      || algebraDraftState.quizDetails.grade == ""
      || algebraDraftState.quizDetails.timeLimit.jsLe (.int 0)) = false := by
    decide
  have h3 : (algebraDraftState.quizQuestions.length == 0) = false := rfl
  have hmain := submit_persist_call false (some "user-1") 1700000000000
    (fun _ _ => .ok "X") algebraDraftState h1 h2 h3
  exact ⟨h1, h2, h3, hmain.1, hmain.2.2.2.1⟩

/-- Claim C4 (success path): when the persistence write succeeds, the
confirmation message is built from the draft's title and the identifier
returned by the collaborator, the draft details are reset to the default
values, and the question sequence is cleared (and the submitting flag is
lowered by the `finally`). -/
theorem submit_success_resets (authLoading : Bool) (currentUser : Option String)
    (now : Nat) (persist : QuizBundle → String → Except String String)
    (st : ComponentState) (quizId : String)
    (hAuth : (authLoading || currentUser.isNone) = false)
    (hDetails : (st.quizDetails.title == "" || st.quizDetails.grade == ""
        || st.quizDetails.timeLimit.jsLe (.int 0)) = false)
    (hQs : (st.quizQuestions.length == 0) = false)
    (hOk : persist (submittedBundle now st) (currentUser.getD "")
        = .ok quizId) :
    (handleSubmit authLoading currentUser now persist st).state.successMessage
        = some (successMessageFor st.quizDetails.title quizId)
    ∧ (handleSubmit authLoading currentUser now persist st).state.quizDetails
        = { id := "", title := "", grade := "", timeLimit := .int 0,
            targetAudience := "authenticated" }
    ∧ (handleSubmit authLoading currentUser now persist st).state.quizQuestions
        = []
    ∧ (handleSubmit authLoading currentUser now persist st).state.formError
        = none
    ∧ (handleSubmit authLoading currentUser now persist st).state.isSubmitting
        = false := by
  rw [handleSubmit_eq_of_valid authLoading currentUser now persist st
    hAuth hDetails hQs, hOk]
  simp [submitResolve, submittedBundle]

/-- Witness for C4: the worked example draft with a collaborator that
returns identifier `"fs-1"`; the confirmation mentions `Algebra` and
`fs-1`. -/
theorem submit_success_resets_witness :
    ((false || (some "user-1" : Option String).isNone) = false)
    ∧ ((algebraDraftState.quizDetails.title == ""
        || algebraDraftState.quizDetails.grade == ""
        || algebraDraftState.quizDetails.timeLimit.jsLe (.int 0)) = false)
    ∧ ((algebraDraftState.quizQuestions.length == 0) = false)
    ∧ ((fun (_ : QuizBundle) (_ : String) => (.ok "fs-1" : Except String String))
        (submittedBundle 1700000000000 algebraDraftState)
        ((some "user-1" : Option String).getD "") = .ok "fs-1")
    ∧ (handleSubmit false (some "user-1") 1700000000000
        (fun _ _ => .ok "fs-1") algebraDraftState).state.successMessage
        = some (successMessageFor "Algebra" "fs-1")
    ∧ (handleSubmit false (some "user-1") 1700000000000
        (fun _ _ => .ok "fs-1") algebraDraftState).state.quizQuestions = [] := by
  have h2 : (algebraDraftState.quizDetails.title == ""
      || algebraDraftState.quizDetails.grade == ""
      || algebraDraftState.quizDetails.timeLimit.jsLe (.int 0)) = false := by
    decide
  have hmain := submit_success_resets false (some "user-1") 1700000000000
    (fun _ _ => .ok "fs-1") algebraDraftState "fs-1" rfl h2 rfl rfl
  exact ⟨rfl, h2, rfl, rfl, hmain.1, hmain.2.2.1⟩

/-- Claim C5 (failure path): when the persistence write rejects,
`handleSubmit` surfaces the failure message carrying the collaborator's
message, and the draft — quiz details, question sequence, and file-error
flag — is left exactly as before the attempt, so the user can retry. -/
theorem submit_failure_preserves (authLoading : Bool)
    (currentUser : Option String) (now : Nat)
    (persist : QuizBundle → String → Except String String)
    (st : ComponentState) (msg : String)
    (hAuth : (authLoading || currentUser.isNone) = false)
    (hDetails : (st.quizDetails.title == "" || st.quizDetails.grade == ""
        || st.quizDetails.timeLimit.jsLe (.int 0)) = false)
    (hQs : (st.quizQuestions.length == 0) = false)
    (hErr : persist (submittedBundle now st) (currentUser.getD "")
        = .error msg) :
    (handleSubmit authLoading currentUser now persist st).state.quizDetails
        = st.quizDetails
    ∧ (handleSubmit authLoading currentUser now persist st).state.quizQuestions
        = st.quizQuestions
    ∧ (handleSubmit authLoading currentUser now persist st).state.fileError
        = st.fileError
    ∧ (handleSubmit authLoading currentUser now persist st).state.formError
        = some (persistFailMessageFor msg)
    ∧ (handleSubmit authLoading currentUser now persist st).state.isSubmitting
        = false
    ∧ (msg ≠ "" → persistFailMessageFor msg
        = "Failed to save quiz: " ++ msg) := by
  rw [handleSubmit_eq_of_valid authLoading currentUser now persist st
    hAuth hDetails hQs, hErr]
  refine ⟨rfl, rfl, rfl, rfl, rfl, ?_⟩
  intro hne
  simp [persistFailMessageFor, hne]

/-- Witness for C5: the worked example draft with a collaborator that
rejects with message `"network down"`; the draft survives unchanged. -/
theorem submit_failure_preserves_witness :
    ((false || (some "user-1" : Option String).isNone) = false)
    ∧ ((algebraDraftState.quizDetails.title == ""
        || algebraDraftState.quizDetails.grade == ""
        || algebraDraftState.quizDetails.timeLimit.jsLe (.int 0)) = false)
    ∧ ((algebraDraftState.quizQuestions.length == 0) = false)
    ∧ ((fun (_ : QuizBundle) (_ : String) =>
          (.error "network down" : Except String String))
        (submittedBundle 1700000000000 algebraDraftState)
        ((some "user-1" : Option String).getD "") = .error "network down")
    ∧ (handleSubmit false (some "user-1") 1700000000000
        (fun _ _ => .error "network down")
        algebraDraftState).state.quizDetails = algebraDraftState.quizDetails
    ∧ (handleSubmit false (some "user-1") 1700000000000
        (fun _ _ => .error "network down")
        algebraDraftState).state.formError
        = some (persistFailMessageFor "network down") := by
  have h2 : (algebraDraftState.quizDetails.title == ""
      || algebraDraftState.quizDetails.grade == ""
      || algebraDraftState.quizDetails.timeLimit.jsLe (.int 0)) = false := by
    decide
  have hmain := submit_failure_preserves false (some "user-1") 1700000000000
    (fun _ _ => .error "network down") algebraDraftState "network down"
    rfl h2 rfl rfl
  exact ⟨rfl, h2, rfl, rfl, hmain.1, hmain.2.2.2.1⟩

/-- Claim C8 exhibit (time-limit invariant broken by `NaN`): evaluating the
pipeline at the failing input — the time-limit number field cleared, so
its change event carries value `""` — shows `parseInt("")` storing `NaN`
in the draft; `NaN <= 0` is `false`, so the details check passes, the
persistence write is invoked, and the persisted bundle carries
`timeLimit = NaN`, which is not a positive integer. -/
theorem timeLimit_nan_persisted :
    parseIntJs "" = JsNum.nan
    ∧ nanDraftState.quizDetails.timeLimit = JsNum.nan
    ∧ nanDraftState.quizDetails.timeLimit.jsLe (.int 0) = false
    ∧ (handleSubmit false (some "u1") 1700000000000
        (fun _ _ => .ok "X") nanDraftState).callMade
        = some (submittedBundle 1700000000000 nanDraftState, "u1")
    ∧ (submittedBundle 1700000000000 nanDraftState).details.timeLimit
        = JsNum.nan
    ∧ (∀ i : Int,
        (submittedBundle 1700000000000 nanDraftState).details.timeLimit
          ≠ JsNum.int i) := by
  refine ⟨rfl, rfl, rfl, ?_, rfl, fun i h => JsNum.noConfusion h⟩
  rw [handleSubmit_eq_of_valid false (some "u1") 1700000000000
    (fun _ _ => .ok "X") nanDraftState rfl (by decide) rfl]
  rfl

/-- Executable distinctness entails pairwise-distinct timestamps. -/
theorem distinctCreatedAt_pairwise {qs : List LiveQuizData}
    (h : distinctCreatedAt qs = true) :
    qs.Pairwise (fun a b => a.createdAt ≠ b.createdAt) := by
  induction qs with
  | nil => exact List.Pairwise.nil
  | cons q rest ih =>
    have hcons : (rest.all (fun r => q.createdAt != r.createdAt)
        && distinctCreatedAt rest) = true := h
    rw [Bool.and_eq_true] at hcons
    obtain ⟨h1, h2⟩ := hcons
    refine List.Pairwise.cons ?_ (ih h2)
    intro b hb
    simpa using List.all_eq_true.mp h1 b hb

/-- Claim C7 (listing order): for every fetched list of quizzes with
pairwise-distinct creation timestamps, the listing view presents a
permutation of them ordered by creation time strictly descending (most
recent first). -/
theorem listing_sorted (qs : List LiveQuizData)
    (h : distinctCreatedAt qs = true) :
    (sortQuizzes qs).Perm qs
    ∧ (sortQuizzes qs).Pairwise (fun a b => b.createdAt < a.createdAt) := by
  have hdist : qs.Pairwise (fun a b => a.createdAt ≠ b.createdAt) :=
    distinctCreatedAt_pairwise h
  have hperm : (sortQuizzes qs).Perm qs := List.perm_insertionSort _ _
  refine ⟨hperm, ?_⟩
  have hsorted : (sortQuizzes qs).Pairwise byCreatedAtDesc :=
    List.sorted_insertionSort _ _
  have hdist' : (sortQuizzes qs).Pairwise
      (fun a b => a.createdAt ≠ b.createdAt) :=
    (hperm.pairwise_iff (fun h => h.symm)).mpr hdist
  exact (hsorted.and hdist').imp
    (fun h => lt_of_le_of_ne h.1 (fun e => h.2 e.symm))

/-- Witness for C7 at the spec's example: creation times `[100, 300, 200]`
are listed in the order `[300, 200, 100]`. -/
theorem listing_sorted_witness :
    distinctCreatedAt [listedQuizAt "a" 100, listedQuizAt "b" 300,
        listedQuizAt "c" 200] = true
    ∧ (sortQuizzes [listedQuizAt "a" 100, listedQuizAt "b" 300,
        listedQuizAt "c" 200]).Perm
        [listedQuizAt "a" 100, listedQuizAt "b" 300, listedQuizAt "c" 200]
    ∧ (sortQuizzes [listedQuizAt "a" 100, listedQuizAt "b" 300,
        listedQuizAt "c" 200]).Pairwise
        (fun a b => b.createdAt < a.createdAt)
    ∧ (sortQuizzes [listedQuizAt "a" 100, listedQuizAt "b" 300,
        listedQuizAt "c" 200]).map LiveQuizData.createdAt
        = [300, 200, 100] := by
  have hdist : distinctCreatedAt [listedQuizAt "a" 100, listedQuizAt "b" 300,
      listedQuizAt "c" 200] = true := rfl
  have hmain := listing_sorted
    [listedQuizAt "a" 100, listedQuizAt "b" 300, listedQuizAt "c" 200] hdist
  exact ⟨hdist, hmain.1, hmain.2, rfl⟩

/-- The details handler never touches the submitting flag. -/
theorem handleDetailsChange_isSubmitting (name value : String)
    (st : ComponentState) :
    (handleDetailsChange name value st).isSubmitting = st.isSubmitting := rfl

/-- The file handler never touches the submitting flag. -/
theorem handleFileChange_isSubmitting (parsed : Option (Except Unit Json))
    (st : ComponentState) :
    (handleFileChange parsed st).isSubmitting = st.isSubmitting := by
  rcases parsed with _ | e
  · rfl
  rcases e with e | data
  · rfl
  cases data with
  | arr items =>
    simp only [handleFileChange, ingestParsed]
    rcases everyHasIdAndQuestion items with e | b
    · rfl
    · cases b
      · rfl
      · rfl
  | null => rfl
  | bool b => rfl
  | num n => rfl
  | str s => rfl
  | obj fields => rfl

/-- When the synchronous prefix of `handleSubmit` starts a persistence
call, it has raised the submitting flag. -/
theorem submitBegin_some_isSubmitting (a : Bool) (u : Option String)
    (now : Nat) (st : ComponentState) (c : QuizBundle × String)
    (h : (submitBegin a u now st).2 = some c) :
    (submitBegin a u now st).1.isSubmitting = true := by
  by_cases h1 : (a || u.isNone) = true
  · simp [submitBegin, h1] at h
  · have h1' : (a || u.isNone) = false := Bool.eq_false_iff.mpr h1
    by_cases h2 : (st.quizDetails.title == "" || st.quizDetails.grade == ""
        || st.quizDetails.timeLimit.jsLe (.int 0)) = true
    · simp [submitBegin, h1', h2] at h
    · have h2' : (st.quizDetails.title == "" || st.quizDetails.grade == ""
          || st.quizDetails.timeLimit.jsLe (.int 0)) = false :=
        Bool.eq_false_iff.mpr h2
      by_cases h3 : (st.quizQuestions.length == 0) = true
      · simp [submitBegin, h1', h2', h3] at h
      · have h3' : (st.quizQuestions.length == 0) = false :=
          Bool.eq_false_iff.mpr h3
        simp [submitBegin, h1', h2', h3']

/-- A started persistence call is a single one. -/
theorem submitBegin_toList_length (a : Bool) (u : Option String)
    (now : Nat) (st : ComponentState) :
    (submitBegin a u now st).2.toList.length ≤ 1 := by
  rcases (submitBegin a u now st).2 with _ | c <;> simp

/-- Claim C9 (no overlapping submissions): in every state a form instance
can reach, at most one persistence call is in flight, and while one is in
flight the submitting flag is raised — which is exactly what disables the
submit button and so prevents re-entry until the attempt resolves. Two
overlapping persistence writes from the same form instance are therefore
impossible. -/
theorem submission_mutual_exclusion (s : Sys) (h : Reachable s) :
    s.inFlight.length ≤ 1
    ∧ (s.inFlight ≠ [] → s.comp.isSubmitting = true) := by
  induction h with
  | init a u => exact ⟨by simp [initSys], by simp [initSys]⟩
  | @step sp t hr hstep ih =>
    cases hstep with
    | click now s hguard =>
      have hnotsub : sp.comp.isSubmitting = false := by
        rcases hb : sp.comp.isSubmitting with _ | _
        · rfl
        · simp [buttonDisabled, hb] at hguard
      have hempty : sp.inFlight = [] := by
        by_contra hne
        rw [ih.2 hne] at hnotsub
        cases hnotsub
      constructor
      · simpa [hempty] using submitBegin_toList_length
          sp.authLoading sp.currentUser now sp.comp
      · intro hne
        rcases hcall : (submitBegin sp.authLoading sp.currentUser now
            sp.comp).2 with _ | c
        · simp [hempty, hcall] at hne
        · exact submitBegin_some_isSubmitting _ _ _ _ c hcall
    | resolve result call rest s hin =>
      have hlen : rest.length = 0 := by
        have h1 := ih.1
        rw [hin] at h1
        simpa using h1
      constructor
      · simp [hlen]
      · intro hne
        exact absurd (List.length_eq_zero.mp hlen) hne
    | details name value s =>
      exact ⟨ih.1, fun hne =>
        (handleDetailsChange_isSubmitting name value sp.comp).trans (ih.2 hne)⟩
    | file parsed s =>
      exact ⟨ih.1, fun hne =>
        (handleFileChange_isSubmitting parsed sp.comp).trans (ih.2 hne)⟩
    | auth a u s =>
      exact ⟨ih.1, fun hne => ih.2 hne⟩

/-- Witness for C9 at a freshly mounted form instance. -/
theorem submission_mutual_exclusion_witness :
    (initSys false none).inFlight.length ≤ 1 :=
  (submission_mutual_exclusion (initSys false none)
    (Reachable.init false none)).1

end NoteLibrary
